import Mathlib

set_option maxRecDepth 8000

/-!
Shallow embedding of the Go URL-shortener Lambda handler of this
repository (`main.go`: record type `URLRecord` and the functions
`handleRequest`, `handleCreate`, `handleRedirect`, `handleMetrics`),
together with the parts of the Go standard library that the handler
observes: `crypto/sha256` + `encoding/hex` (short-code derivation),
the validity / scheme result of `net/url.Parse` (URL validation), and
`time.Format(time.RFC3339)` in UTC (timestamp rendering).  DynamoDB and
CloudWatch are external collaborators: the table is modelled as a list
of records keyed by `short_code`, and every fallible client call gets
an explicit success flag in an `Eff` record.  Machine integers (Go
`uint32` words inside SHA-256) are modelled as `Nat` reduced mod 2^32;
Go `int64` fields are modelled as `Int`.
-/

namespace UrlSh

/-! ### SHA-256 (`crypto/sha256`), over byte lists -/

/-- Truncate to a 32-bit word, as Go `uint32` arithmetic does. -/
def w32 (x : Nat) : Nat := x % 4294967296

/-- 32-bit rotate right. -/
def rotr (n x : Nat) : Nat := w32 ((x >>> n) ||| (x <<< (32 - n)))

/-- 32-bit bitwise complement. -/
def bnot32 (x : Nat) : Nat := x ^^^ 4294967295

def shaCh (x y z : Nat) : Nat := (x &&& y) ^^^ (bnot32 x &&& z)

def shaMaj (x y z : Nat) : Nat := (x &&& y) ^^^ (x &&& z) ^^^ (y &&& z)

def bigSigma0 (x : Nat) : Nat := rotr 2 x ^^^ rotr 13 x ^^^ rotr 22 x

def bigSigma1 (x : Nat) : Nat := rotr 6 x ^^^ rotr 11 x ^^^ rotr 25 x

def smallSigma0 (x : Nat) : Nat := rotr 7 x ^^^ rotr 18 x ^^^ (x >>> 3)

def smallSigma1 (x : Nat) : Nat := rotr 17 x ^^^ rotr 19 x ^^^ (x >>> 10)

/-- The 64 SHA-256 round constants, in decimal. -/
def shaK : List Nat :=
  [1116352408, 1899447441, 3049323471, 3921009573,
   961987163, 1508970993, 2453635748, 2870763221,
   3624381080, 310598401, 607225278, 1426881987,
   1925078388, 2162078206, 2614888103, 3248222580,
   3835390401, 4022224774, 264347078, 604807628,
   770255983, 1249150122, 1555081692, 1996064986,
   2554220882, 2821834349, 2952996808, 3210313671,
   3336571891, 3584528711, 113926993, 338241895,
   666307205, 773529912, 1294757372, 1396182291,
   1695183700, 1986661051, 2177026350, 2456956037,
   2730485921, 2820302411, 3259730800, 3345764771,
   3516065817, 3600352804, 4094571909, 275423344,
   430227734, 506948616, 659060556, 883997877,
   958139571, 1322822218, 1537002063, 1747873779,
   1955562222, 2024104815, 2227730452, 2361852424,
   2428436474, 2756734187, 3204031479, 3329325298]

/-- The eight SHA-256 working variables a..h. -/
structure Hash8 where
  a : Nat
  b : Nat
  c : Nat
  d : Nat
  e : Nat
  f : Nat
  g : Nat
  hh : Nat
deriving DecidableEq

/-- The SHA-256 initial hash value, in decimal. -/
def shaH0 : Hash8 :=
  ⟨1779033703, 3144134277, 1013904242, 2773480762,
   1359893119, 2600822924, 528734635, 1541459225⟩

/-- One SHA-256 compression round. -/
def shaRound (st : Hash8) (k w : Nat) : Hash8 :=
  let t1 := w32 (st.hh + bigSigma1 st.e + shaCh st.e st.f st.g + k + w)
  let t2 := w32 (bigSigma0 st.a + shaMaj st.a st.b st.c)
  ⟨w32 (t1 + t2), st.a, st.b, st.c, w32 (st.d + t1), st.e, st.f, st.g⟩

/-- Big-endian byte rendering of `x` on `n` bytes. -/
def beBytes (n x : Nat) : List Nat :=
  (List.range n).map (fun i => (x >>> ((n - 1 - i) * 8)) % 256)

/-- Group bytes into big-endian 32-bit words. -/
def toWords : List Nat → List Nat
  | a :: b :: c :: d :: rest =>
      (a * 16777216 + b * 65536 + c * 256 + d) :: toWords rest
  | _ => []

/-- Extend the 16 message words by `n` further schedule words. -/
def scheduleAux (acc : List Nat) : Nat → List Nat
  | 0 => acc
  | n + 1 =>
      let l := acc.length
      let w := w32 (smallSigma1 (acc.getD (l - 2) 0) + acc.getD (l - 7) 0 +
                    smallSigma0 (acc.getD (l - 15) 0) + acc.getD (l - 16) 0)
      scheduleAux (acc ++ [w]) n

/-- The full 64-word SHA-256 message schedule of one block. -/
def schedule (ws : List Nat) : List Nat := scheduleAux ws 48

/-- Compress one 64-byte block into the running hash value. -/
def compressBlock (hs : Hash8) (block : List Nat) : Hash8 :=
  let ws := schedule (toWords block)
  let st := (shaK.zip ws).foldl (fun st kw => shaRound st kw.1 kw.2) hs
  ⟨w32 (hs.a + st.a), w32 (hs.b + st.b), w32 (hs.c + st.c), w32 (hs.d + st.d),
   w32 (hs.e + st.e), w32 (hs.f + st.f), w32 (hs.g + st.g), w32 (hs.hh + st.hh)⟩

/-- Fold the compression function over `n` leading 64-byte blocks. -/
def sha256Go : Nat → Hash8 → List Nat → Hash8
  | 0, hs, _ => hs
  | n + 1, hs, l => sha256Go n (compressBlock hs (l.take 64)) (l.drop 64)

/-- Fold the compression function over all 64-byte blocks; the padded
message length is always a multiple of 64, so `l.length / 64` is the
exact block count. -/
def sha256Blocks (hs : Hash8) (l : List Nat) : Hash8 :=
  sha256Go (l.length / 64) hs l

/-- SHA-256 padding: append `0x80`, zeros, and the 64-bit bit length. -/
def padMsg (msg : List Nat) : List Nat :=
  let len := msg.length
  let zeros := (119 - len % 64) % 64
  msg ++ [128] ++ List.replicate zeros 0 ++ beBytes 8 (len * 8)

/-- SHA-256 digest of a byte list, as 32 bytes. -/
def sha256 (msg : List Nat) : List Nat :=
  let st := sha256Blocks shaH0 (padMsg msg)
  beBytes 4 st.a ++ beBytes 4 st.b ++ beBytes 4 st.c ++ beBytes 4 st.d ++
  beBytes 4 st.e ++ beBytes 4 st.f ++ beBytes 4 st.g ++ beBytes 4 st.hh

/-! ### `encoding/hex` and Go's `[]byte(string)` UTF-8 conversion -/

/-- Lower-case hex digit character for a nibble. -/
def hexDigit (n : Nat) : Char :=
  if n < 10 then Char.ofNat (48 + n) else Char.ofNat (87 + n)

/-- The two lower-case hex characters of one byte. -/
def hexByte (b : Nat) : List Char := [hexDigit (b / 16), hexDigit (b % 16)]

/-- Lower-case hex encoding of a byte list, as `hex.EncodeToString` does. -/
def hexEncode (bs : List Nat) : List Char := bs.flatMap hexByte

/-- UTF-8 encoding of one Unicode code point, as byte values. -/
def charUTF8 (c : Nat) : List Nat :=
  if c < 128 then [c]
  else if c < 2048 then
    [192 ||| (c >>> 6), 128 ||| (c &&& 63)]
  else if c < 65536 then
    [224 ||| (c >>> 12), 128 ||| ((c >>> 6) &&& 63), 128 ||| (c &&& 63)]
  else
    [240 ||| (c >>> 18), 128 ||| ((c >>> 12) &&& 63),
     128 ||| ((c >>> 6) &&& 63), 128 ||| (c &&& 63)]

/-- The byte values of a string, as Go's `[]byte(s)` produces them. -/
def strBytes (s : String) : List Nat :=
  (s.data.map Char.toNat).flatMap charUTF8

/-- The short code of a URL: the first 8 characters of the lower-case
hex encoding of the SHA-256 digest of the raw string, exactly as
`hex.EncodeToString(sha256.Sum256([]byte(rawURL)))[:8]` computes it. -/
def generateShortCode (s : String) : String :=
  String.mk ((hexEncode (sha256 (strBytes s))).take 8)

/-- The three short-code vectors of `main_test.go`
(`TestGenerateShortCode`), validating the SHA-256 embedding. -/
theorem generateShortCode_test_vectors :
    generateShortCode "" = "e3b0c442" ∧
    generateShortCode "https://foo.com" = "a9a9b569" ∧
    generateShortCode "https://bar.com" = "23d97719" := by decide

/-! ### `net/url.Parse`, to the extent `handleCreate` observes it

`handleCreate` accepts `rawURL` exactly when `url.Parse(rawURL)` returns
a nil error and the parsed (lower-cased) scheme is `http` or `https`.
The definitions below follow Go's `net/url` byte by byte for that
combined check: `getScheme`, the control-byte check, the query /
fragment splits, `parseAuthority` / `parseHost` / `validUserinfo` /
`validOptionalPort`, and the error side of `unescape` in the host,
zone, user-password, path and fragment encoding modes. -/

def isDigitB (c : Nat) : Bool := 48 ≤ c && c ≤ 57

def isAlphaB (c : Nat) : Bool := (65 ≤ c && c ≤ 90) || (97 ≤ c && c ≤ 122)

def toLowerB (c : Nat) : Nat := if 65 ≤ c && c ≤ 90 then c + 32 else c

/-- Go `stringContainsCTLByte`: a byte below 0x20 or equal to 0x7f. -/
def isCTL (c : Nat) : Bool := c < 32 || c = 127

def ishexB (c : Nat) : Bool :=
  isDigitB c || (97 ≤ c && c ≤ 102) || (65 ≤ c && c ≤ 70)

def unhexB (c : Nat) : Nat :=
  if isDigitB c then c - 48
  else if 97 ≤ c && c ≤ 102 then c - 87
  else if 65 ≤ c && c ≤ 70 then c - 55
  else 0

/-- Go `split(s, sep, true)`: cut at the first occurrence of `sep`,
dropping the separator; `(s, "")` when absent. -/
def cutDrop (sep : Nat) : List Nat → List Nat × List Nat
  | [] => ([], [])
  | c :: cs =>
      if c = sep then ([], cs)
      else
        let r := cutDrop sep cs
        (c :: r.1, r.2)

/-- Go `split(s, sep, false)`: cut at the first occurrence of `sep`,
keeping the separator on the right; `(s, "")` when absent. -/
def cutKeep (sep : Nat) : List Nat → List Nat × List Nat
  | [] => ([], [])
  | c :: cs =>
      if c = sep then ([], c :: cs)
      else
        let r := cutKeep sep cs
        (c :: r.1, r.2)

/-- Split at the last occurrence of `sep` (as `strings.LastIndex` based
splits do), the separator excluded; `none` when absent. -/
def splitLast (sep : Nat) : List Nat → Option (List Nat × List Nat)
  | [] => none
  | c :: cs =>
      match splitLast sep cs with
      | some (b, a) => some (c :: b, a)
      | none => if c = sep then some ([], cs) else none

/-- Go `getScheme`: returns `(scheme, rest)`; `none` is the "missing
protocol scheme" error (a `:` in first position); a non-scheme byte or
a digit/`+`/`-`/`.` in first position yields an empty scheme. -/
def getSchemeAux (orig acc : List Nat) : List Nat → Option (List Nat × List Nat)
  | [] => some ([], orig)
  | c :: cs =>
      if isAlphaB c then getSchemeAux orig (acc ++ [c]) cs
      else if isDigitB c || c = 43 || c = 45 || c = 46 then
        (if acc.isEmpty then some ([], orig) else getSchemeAux orig (acc ++ [c]) cs)
      else if c = 58 then
        (if acc.isEmpty then none else some (acc, cs))
      else some ([], orig)

def getScheme (s : List Nat) : Option (List Nat × List Nat) :=
  getSchemeAux s [] s

/-- Go `shouldEscape(c, encodeHost)` (identical for `encodeZone`):
true for every byte other than alphanumerics, the host sub-delims
`!$&'()*+,;=:[]<>"` and `-._~`. -/
def shouldEscapeHost (c : Nat) : Bool :=
  !(isAlphaB c || isDigitB c ||
    [33, 36, 38, 39, 40, 41, 42, 43, 44, 59, 61, 58, 91, 93, 60, 62, 34].contains c ||
    [45, 95, 46, 126].contains c)

/-- The `unescape` encoding modes whose error behaviour differs. -/
inductive EscMode
  | host
  | zone
  | other
deriving DecidableEq

/-- The error side of Go `unescape(s, mode)`: checks that every `%` is
followed by two hex digits; in host mode additionally that only
non-ASCII bytes or `%25` are escaped and that unescaped ASCII bytes are
legal host bytes; similarly in zone mode. -/
def unescapeOk (mode : EscMode) : List Nat → Bool
  | [] => true
  | 37 :: rest =>
      (match rest with
       | a :: b :: rest2 =>
           if !(ishexB a && ishexB b) then false
           else if mode = .host && unhexB a < 8 && !(a = 50 && b = 53) then false
           else if mode = .zone && !(a = 50 && b = 53) &&
                   !(unhexB a * 16 + unhexB b = 32) &&
                   shouldEscapeHost (unhexB a * 16 + unhexB b) then false
           else unescapeOk mode rest2
       | _ => false)
  | c :: cs =>
      if (mode = .host || mode = .zone) && c < 128 && shouldEscapeHost c then false
      else unescapeOk mode cs

/-- Go `validOptionalPort`: empty, or `:` followed by digits only. -/
def validOptionalPort (s : List Nat) : Bool :=
  match s with
  | [] => true
  | 58 :: rest => rest.all isDigitB
  | _ => false

/-- Go `validUserinfo`: every rune is alphanumeric or one of
`-._:~!$&'()*+,;=%@`. -/
def validUserinfoB (s : List Nat) : Bool :=
  s.all fun c =>
    isAlphaB c || isDigitB c ||
    [45, 46, 95, 58, 126, 33, 36, 38, 39, 40, 41, 42, 43, 44, 59, 61, 37, 64].contains c

/-- First occurrence of the three bytes `%25`, as
`strings.Index(s, "%25")`: `(before, from the match on)`. -/
def findPct25 : List Nat → Option (List Nat × List Nat)
  | 37 :: 50 :: 53 :: rest => some ([], 37 :: 50 :: 53 :: rest)
  | c :: cs =>
      (match findPct25 cs with
       | some (b, a) => some (c :: b, a)
       | none => none)
  | [] => none

/-- The error side of Go `parseHost`. -/
def hostOk (host : List Nat) : Bool :=
  match host with
  | 91 :: _ =>
      -- An IPv6 bracketed address, `strings.HasPrefix(host, "[")`.
      (match splitLast 93 host with
       | none => false
       | some (pre, post) =>
           validOptionalPort post &&
           (match findPct25 pre with
            | some (beforeZone, fromZone) =>
                unescapeOk .host beforeZone && unescapeOk .zone fromZone &&
                unescapeOk .host (93 :: post)
            | none => unescapeOk .host host))
  | _ =>
      (match splitLast 58 host with
       | some (_, port) => validOptionalPort (58 :: port) && unescapeOk .host host
       | none => unescapeOk .host host)

/-- The error side of Go `parseAuthority`. -/
def authorityOk (auth : List Nat) : Bool :=
  match splitLast 64 auth with
  | none => hostOk auth
  | some (userinfo, hostpart) =>
      hostOk hostpart && validUserinfoB userinfo &&
      (if userinfo.contains 58 then
        let up := cutDrop 58 userinfo
        unescapeOk .other up.1 && unescapeOk .other up.2
      else unescapeOk .other userinfo)

def httpBytes : List Nat := [104, 116, 116, 112]

def httpsBytes : List Nat := [104, 116, 116, 112, 115]

/-- The combined check of `handleCreate`: `url.Parse(rawURL)` returns a
nil error and the parsed scheme is exactly `http` or `https`, following
Go's `Parse`/`parse` for absolute URLs (for any other scheme, including
the empty one, the handler rejects regardless of parse success). -/
def validHTTPUrl (s : String) : Bool :=
  let bs := strBytes s
  let uf := cutDrop 35 bs
  if (uf.1).any isCTL then false
  else
    match getScheme uf.1 with
    | none => false
    | some (sch, rest) =>
        let sch := sch.map toLowerB
        if !(sch = httpBytes || sch = httpsBytes) then false
        else
          let rest := rest.takeWhile (fun c => !(c = 63))
          (match rest with
           | 47 :: 47 :: rest2 =>
               let ar := cutKeep 47 rest2
               authorityOk ar.1 && unescapeOk .other ar.2 && unescapeOk .other uf.2
           | 47 :: rest2 =>
               unescapeOk .other (47 :: rest2) && unescapeOk .other uf.2
           | _ =>
               -- A rootless "opaque" part, returned without validation.
               unescapeOk .other uf.2)

/-- The validation vectors of `main_test.go` (`TestValidateURL`),
plus further inputs exercising Go's scheme lower-casing, ports,
userinfo, escapes, IPv6 brackets and illegal host bytes. -/
theorem validHTTPUrl_test_vectors :
    validHTTPUrl "https://foo.com" = true ∧
    validHTTPUrl "http://foo.com" = true ∧
    validHTTPUrl "ftp://foo.com" = false ∧
    validHTTPUrl "not-a-url" = false ∧
    validHTTPUrl "" = false ∧
    validHTTPUrl "HTTP://Foo.com" = true ∧
    validHTTPUrl "http://foo.com:8080/a/b?q=1#frag" = true ∧
    validHTTPUrl "http://user:pw@foo.com/x" = true ∧
    validHTTPUrl "http://foo.com/%zz" = false ∧
    validHTTPUrl "http://foo.com:80x/" = false ∧
    validHTTPUrl "http://[::1]:80/" = true ∧
    validHTTPUrl "http://foo com/" = false := by decide

/-! ### `time.Format(time.RFC3339)` in UTC, from epoch seconds

The Lambda runs with a UTC clock; `time.Now().Format(time.RFC3339)` and
`time.Unix(sec, 0).Format(time.RFC3339)` render an epoch second as
`YYYY-MM-DDThh:mm:ssZ`.  The civil-date computation uses Euclidean
division, which agrees with floor division for positive divisors. -/

/-- Zero-padded two-digit rendering. -/
def pad2 (n : Nat) : String := (if n < 10 then "0" else "") ++ toString n

/-- Zero-padded four-digit rendering. -/
def pad4 (n : Nat) : String :=
  (if n < 10 then "000" else if n < 100 then "00" else if n < 1000 then "0" else "") ++
  toString n

/-- Proleptic-Gregorian civil date `(year, month, day)` of a day count
from 1970-01-01. -/
def civilFromDays (days : Int) : Int × Nat × Nat :=
  let z := days + 719468
  let era := Int.ediv z 146097
  let doe := (Int.emod z 146097).toNat
  let yoe := (doe - doe / 1460 + doe / 36524 - doe / 146096) / 365
  let y : Int := (yoe : Int) + era * 400
  let doy := doe - (365 * yoe + yoe / 4 - yoe / 100)
  let mp := (5 * doy + 2) / 153
  let d := doy - (153 * mp + 2) / 5 + 1
  let m := if mp < 10 then mp + 3 else mp - 9
  (y + (if m ≤ 2 then 1 else 0), m, d)

/-- RFC-3339 rendering of an epoch second, UTC. -/
def rfc3339 (t : Int) : String :=
  let days := Int.ediv t 86400
  let secs := (Int.emod t 86400).toNat
  let ymd := civilFromDays days
  pad4 ymd.1.toNat ++ "-" ++ pad2 ymd.2.1 ++ "-" ++ pad2 ymd.2.2 ++ "T" ++
  pad2 (secs / 3600) ++ ":" ++ pad2 (secs % 3600 / 60) ++ ":" ++ pad2 (secs % 60) ++ "Z"

/-- Spot checks of the RFC-3339 rendering, leap day included. -/
theorem rfc3339_test_vectors :
    rfc3339 0 = "1970-01-01T00:00:00Z" ∧
    rfc3339 1705312800 = "2024-01-15T10:00:00Z" ∧
    rfc3339 951827696 = "2000-02-29T12:34:56Z" := by decide

/-! ### Data model and external collaborators

`URLRecord` is the Go struct of `main.go`.  The DynamoDB table is a
list of records; `GetItem` keyed on `short_code` is first-match lookup
and `PutItem` is an unconditional upsert (overwrite the record holding
the same `short_code`, or append).  `Eff` carries one success flag per
fallible external call of the handler: the two marshals, the
`PutItem`/`GetItem`/`Scan` calls, the attribute unmarshal, and the
fire-and-forget CloudWatch metric (whose result the code discards). -/

/-- The persisted record (`URLRecord` in `main.go`). -/
structure URLRecord where
  ShortCode : String
  OriginalURL : String
  ExpiresAt : Int
  CreatedAt : String
  ClickCount : Int
deriving DecidableEq

/-- The DynamoDB table contents. -/
abbrev Store := List URLRecord

/-- `GetItem` keyed on `short_code`. -/
def Store.get (s : Store) (code : String) : Option URLRecord :=
  s.find? (fun r => r.ShortCode == code)

/-- `PutItem`: unconditional upsert keyed on the record's own
`short_code` — overwrite in place, or append when absent. -/
def Store.put (s : Store) (r : URLRecord) : Store :=
  match s with
  | [] => [r]
  | x :: xs => if x.ShortCode = r.ShortCode then r :: xs else x :: Store.put xs r

/-- Success flags of the handler's fallible external calls. -/
structure Eff where
  createMarshalOk : Bool
  createPutOk : Bool
  getOk : Bool
  unmarshalOk : Bool
  updateMarshalOk : Bool
  updatePutOk : Bool
  scanOk : Bool
  metricOk : Bool
deriving DecidableEq

/-- The all-successful environment. -/
def effOK : Eff := ⟨true, true, true, true, true, true, true, true⟩

/-- The pieces of an `APIGatewayV2HTTPRequest` the handler reads:
method, raw path, the `shortCode` path parameter (empty when absent),
and the body as the result of `json.Unmarshal` into a string map
(`none` for malformed JSON). -/
structure Request where
  method : String
  rawPath : String
  pathShortCode : String
  bodyJson : Option (List (String × String))
deriving DecidableEq

/-- Go map indexing `m["k"]`: the zero string when the key is absent. -/
def lookupStr (m : List (String × String)) (k : String) : String :=
  match m.find? (fun kv => kv.1 == k) with
  | some kv => kv.2
  | none => ""

/-- An `APIGatewayV2HTTPResponse`: status code, headers, body. -/
structure HTTPResponse where
  statusCode : Nat
  headers : List (String × String)
  body : String
deriving DecidableEq

/-- A handler return value: the response, the Go `error` result (every
return statement in `main.go` is `..., nil`), and the table contents
after the call's DynamoDB writes. -/
structure HandlerOut where
  resp : HTTPResponse
  err : Option String
  store : Store
deriving DecidableEq

def baseHeaders : List (String × String) := [("Content-Type", "application/json")]

def baseURL : String := "https://url-shortener.vibtellect.de"

def invalidJSONBody : String := "\x7b\"error\": \"Invalid JSON in request body\"\x7d"

def missingURLBody : String := "\x7b\"error\": \"URL parameter is required\"\x7d"

def invalidURLBody : String := "\x7b\"error\": \"Invalid URL: only http and https allowed\"\x7d"

def internalErrorBody : String := "\x7b\"error\": \"Internal server error\"\x7d"

def routeNotFoundBody : String := "\x7b\"error\": \"Not found\"\x7d"

def notFoundBody : String := "\x7b\"error\": \"Short URL not found\"\x7d"

def expiredBody : String := "\x7b\"error\": \"Short URL has expired\"\x7d"

/-- The 200 body of `handleCreate`: `json.Marshal` of a Go string map
renders keys sorted, so `expires_at` precedes `short_url`. -/
def createOKBody (shortCode : String) (expiresAt : Int) : String :=
  "\x7b\"expires_at\":\"" ++ rfc3339 expiresAt ++ "\",\"short_url\":\"" ++
  baseURL ++ "/s/" ++ shortCode ++ "\"\x7d"

/-! ### The handlers of `main.go` -/

/-- `handleCreate`. -/
def handleCreate (eff : Eff) (now : Int) (store : Store) (req : Request) : HandlerOut :=
  match req.bodyJson with
  | none => ⟨⟨400, baseHeaders, invalidJSONBody⟩, none, store⟩
  | some requestData =>
      let rawURL := lookupStr requestData "url"
      if rawURL = "" then ⟨⟨400, baseHeaders, missingURLBody⟩, none, store⟩
      else if validHTTPUrl rawURL = false then
        ⟨⟨400, baseHeaders, invalidURLBody⟩, none, store⟩
      else
        let shortCode := generateShortCode rawURL
        let expiresAt := now + 604800
        let record : URLRecord := ⟨shortCode, rawURL, expiresAt, rfc3339 now, 0⟩
        if eff.createMarshalOk = false then
          ⟨⟨500, baseHeaders, internalErrorBody⟩, none, store⟩
        else if eff.createPutOk = false then
          ⟨⟨500, baseHeaders, internalErrorBody⟩, none, store⟩
        else
          ⟨⟨200, baseHeaders, createOKBody shortCode expiresAt⟩, none,
           Store.put store record⟩

/-- `handleRedirect`.  The click-count write-back happens only when
both its marshal and its `PutItem` succeed; either failure is logged
and the redirect proceeds unchanged.  The CloudWatch metric goroutine's
result is discarded, so `metricOk` influences nothing. -/
def handleRedirect (eff : Eff) (now : Int) (store : Store) (req : Request) : HandlerOut :=
  let shortCode := req.pathShortCode
  if eff.getOk = false then ⟨⟨500, baseHeaders, internalErrorBody⟩, none, store⟩
  else
    match Store.get store shortCode with
    | none => ⟨⟨404, baseHeaders, notFoundBody⟩, none, store⟩
    | some record =>
        if eff.unmarshalOk = false then
          ⟨⟨500, baseHeaders, internalErrorBody⟩, none, store⟩
        else if now > record.ExpiresAt then
          ⟨⟨404, baseHeaders, expiredBody⟩, none, store⟩
        else
          let updated : URLRecord := { record with ClickCount := record.ClickCount + 1 }
          let store2 :=
            if eff.updateMarshalOk = true ∧ eff.updatePutOk = true then
              Store.put store updated
            else store
          ⟨⟨301, baseHeaders ++ [("Location", record.OriginalURL)], ""⟩, none, store2⟩

/-- The scan loop of `handleMetrics`: `urlsCreated` counts the records
and `urlsAccessed` accumulates their click counts. -/
def scanCounts (store : Store) : Int × Int :=
  store.foldl (fun acc r => (acc.1 + 1, acc.2 + r.ClickCount)) (0, 0)

/-- The 200 body of `handleMetrics` on a successful scan; map keys
render sorted, and `unique_visitors` is passed the accessed count. -/
def metricsOKBody (created accessed uniqueVisitors active : Int) (now : Int) : String :=
  "\x7b\"active_urls\":" ++ toString active ++ ",\"timestamp\":\"" ++ rfc3339 now ++
  "\",\"unique_visitors\":" ++ toString uniqueVisitors ++
  ",\"urls_accessed\":" ++ toString accessed ++
  ",\"urls_created\":" ++ toString created ++ "\x7d"

/-- The 200 body of `handleMetrics` when the scan fails. -/
def metricsErrBody (now : Int) : String :=
  "\x7b\"active_urls\":0,\"error\":\"Failed to fetch metrics\",\"timestamp\":\"" ++
  rfc3339 now ++ "\",\"unique_visitors\":0,\"urls_accessed\":0,\"urls_created\":0\x7d"

/-- `handleMetrics`. -/
def handleMetrics (eff : Eff) (now : Int) (store : Store) (_req : Request) : HandlerOut :=
  if eff.scanOk = false then ⟨⟨200, baseHeaders, metricsErrBody now⟩, none, store⟩
  else
    let activeUrls : Int := store.length
    let counts := scanCounts store
    ⟨⟨200, baseHeaders, metricsOKBody counts.1 counts.2 counts.2 activeUrls now⟩,
     none, store⟩

/-- `handleRequest`: the route dispatch. -/
def handleRequest (eff : Eff) (now : Int) (store : Store) (req : Request) : HandlerOut :=
  if req.method = "POST" ∧ req.rawPath = "/create" then handleCreate eff now store req
  else if req.method = "GET" ∧ req.pathShortCode ≠ "" then handleRedirect eff now store req
  else if req.method = "GET" ∧ req.rawPath = "/metrics" then handleMetrics eff now store req
  else ⟨⟨404, baseHeaders, routeNotFoundBody⟩, none, store⟩

/-- The `POST /create` request carrying `{"url": s}`. -/
def createReq (s : String) : Request := ⟨"POST", "/create", "", some [("url", s)]⟩

/-- The `GET /s/{code}` request. -/
def resolveReq (code : String) : Request := ⟨"GET", "/s/" ++ code, code, none⟩

/-- First header value under a name. -/
def headerGet (hs : List (String × String)) (k : String) : Option String :=
  (hs.find? (fun kv => kv.1 == k)).map (fun kv => kv.2)

/-! ### Store lemmas -/

theorem store_get_cons (x : URLRecord) (xs : Store) (code : String) :
    Store.get (x :: xs) code =
      if x.ShortCode = code then some x else Store.get xs code := by
  by_cases h : x.ShortCode = code
  · simp only [Store.get, List.find?, if_pos h, beq_iff_eq.mpr h]
  · simp only [Store.get, List.find?, if_neg h,
      show (x.ShortCode == code) = false by simp [beq_eq_false_iff_ne, h]]

theorem store_get_put (s : Store) (r : URLRecord) (code : String) :
    Store.get (Store.put s r) code =
      if code = r.ShortCode then some r else Store.get s code := by
  induction s with
  | nil =>
      show Store.get [r] code = if code = r.ShortCode then some r else Store.get [] code
      rw [store_get_cons]
      by_cases h : code = r.ShortCode
      · simp [h]
      · simp [h, Ne.symm h, Store.get, List.find?]
  | cons x xs ih =>
      simp only [Store.put]
      by_cases hx : x.ShortCode = r.ShortCode
      · rw [if_pos hx]
        by_cases h : code = r.ShortCode
        · simp [store_get_cons, h]
        · have hxc : x.ShortCode ≠ code := by rw [hx]; exact Ne.symm h
          simp [store_get_cons, h, Ne.symm h, hxc]
      · rw [if_neg hx]
        by_cases hxc : x.ShortCode = code
        · have h : ¬ code = r.ShortCode := fun hc => hx (hxc.trans hc)
          simp [store_get_cons, hxc, h]
        · simp [store_get_cons, hxc, ih]

theorem store_get_key (s : Store) (code : String) (r : URLRecord)
    (h : Store.get s code = some r) : r.ShortCode = code := by
  have := List.find?_some h
  simpa using this

theorem scanCounts_aux (s : Store) (a b : Int) :
    s.foldl (fun acc r => (acc.1 + 1, acc.2 + r.ClickCount)) (a, b) =
      (a + s.length, b + (s.map (fun r => r.ClickCount)).sum) := by
  induction s generalizing a b with
  | nil => simp
  | cons x xs ih =>
      simp only [List.foldl_cons, ih, List.length_cons, List.map_cons, List.sum_cons,
        Prod.mk.injEq]
      refine ⟨by push_cast; ring, by ring⟩

theorem scanCounts_eq (s : Store) :
    scanCounts s = ((s.length : Int), (s.map (fun r => r.ClickCount)).sum) := by
  simpa using scanCounts_aux s 0 0

/-! ### Handler branch lemmas -/

theorem validHTTPUrl_ne_empty (s : String) (hv : validHTTPUrl s = true) : s ≠ "" := by
  intro h
  rw [h] at hv
  exact absurd hv (by decide)

theorem handleCreate_success (eff : Eff) (now : Int) (store : Store) (s : String)
    (hv : validHTTPUrl s = true) (hm : eff.createMarshalOk = true)
    (hp : eff.createPutOk = true) :
    handleCreate eff now store (createReq s) =
      ⟨⟨200, baseHeaders, createOKBody (generateShortCode s) (now + 604800)⟩, none,
       Store.put store ⟨generateShortCode s, s, now + 604800, rfc3339 now, 0⟩⟩ := by
  have hs : s ≠ "" := validHTTPUrl_ne_empty s hv
  simp [handleCreate, createReq, lookupStr, List.find?, hs, hv, hm, hp]

theorem handleRedirect_hit (eff : Eff) (now : Int) (store : Store) (code : String)
    (r : URLRecord) (hg : eff.getOk = true) (hu : eff.unmarshalOk = true)
    (hfound : Store.get store code = some r) (hexp : ¬ now > r.ExpiresAt) :
    handleRedirect eff now store (resolveReq code) =
      ⟨⟨301, baseHeaders ++ [("Location", r.OriginalURL)], ""⟩, none,
       if eff.updateMarshalOk = true ∧ eff.updatePutOk = true then
         Store.put store { r with ClickCount := r.ClickCount + 1 }
       else store⟩ := by
  simp [handleRedirect, resolveReq, hg, hu, hfound, hexp]

/-! ### Claim theorems -/

/-- Claim C1: for every string accepted by the handler's URL validation
(syntactically valid with scheme `http` or `https`), `create` followed
immediately by `resolve` on the derived short code — the store untouched
in between and the resolve clock not past the record's `expires_at` —
answers 200 for the create and a 301 redirect whose `Location` header is
exactly the original URL string. -/
theorem c1_create_then_resolve (s : String) (now now2 : Int) (store : Store)
    (hv : validHTTPUrl s = true) (ht : now2 ≤ now + 604800) :
    (handleCreate effOK now store (createReq s)).resp.statusCode = 200 ∧
    (handleRedirect effOK now2 (handleCreate effOK now store (createReq s)).store
        (resolveReq (generateShortCode s))).resp.statusCode = 301 ∧
    headerGet (handleRedirect effOK now2 (handleCreate effOK now store (createReq s)).store
        (resolveReq (generateShortCode s))).resp.headers "Location" = some s := by
  rw [handleCreate_success effOK now store s hv rfl rfl]
  have hget : Store.get
      (Store.put store ⟨generateShortCode s, s, now + 604800, rfc3339 now, 0⟩)
      (generateShortCode s) =
      some ⟨generateShortCode s, s, now + 604800, rfc3339 now, 0⟩ := by
    rw [store_get_put]
    simp
  rw [handleRedirect_hit effOK now2 _ (generateShortCode s) _ rfl rfl hget
    (by simp; omega)]
  refine ⟨rfl, rfl, ?_⟩
  simp [headerGet, baseHeaders, List.find?]

/-- Witness for C1 at a concrete URL, clock and store. -/
theorem c1_witness :
    validHTTPUrl "https://foo.com" = true ∧ (0 : Int) ≤ 0 + 604800 ∧
    ((handleCreate effOK 0 [] (createReq "https://foo.com")).resp.statusCode = 200 ∧
     (handleRedirect effOK 0 (handleCreate effOK 0 [] (createReq "https://foo.com")).store
         (resolveReq (generateShortCode "https://foo.com"))).resp.statusCode = 301 ∧
     headerGet (handleRedirect effOK 0
         (handleCreate effOK 0 [] (createReq "https://foo.com")).store
         (resolveReq (generateShortCode "https://foo.com"))).resp.headers "Location" =
       some "https://foo.com") :=
  ⟨by decide, by decide,
   c1_create_then_resolve "https://foo.com" 0 0 [] (by decide) (by decide)⟩

/-- Claim C2: the short code a successful `create` stores is the first
8 characters of the lower-case hex SHA-256 of the raw URL string — the
same key for every call with the same string, whatever the clock or
store — and concretely `https://foo.com` yields `a9a9b569` and
`https://bar.com` yields `23d97719`. -/
theorem c2_shortcode_sha256 (eff : Eff) (s : String) (hv : validHTTPUrl s = true)
    (hm : eff.createMarshalOk = true) (hp : eff.createPutOk = true) :
    (∀ (now : Int) (store : Store),
        Store.get (handleCreate eff now store (createReq s)).store
            (String.mk ((hexEncode (sha256 (strBytes s))).take 8)) =
          some ⟨String.mk ((hexEncode (sha256 (strBytes s))).take 8), s,
                now + 604800, rfc3339 now, 0⟩) ∧
    generateShortCode "https://foo.com" = "a9a9b569" ∧
    generateShortCode "https://bar.com" = "23d97719" := by
  refine ⟨?_, by decide, by decide⟩
  intro now store
  rw [handleCreate_success eff now store s hv hm hp]
  show Store.get (Store.put store
      ⟨generateShortCode s, s, now + 604800, rfc3339 now, 0⟩) (generateShortCode s) = _
  rw [store_get_put]
  simp [generateShortCode]

/-- Witness for C2 at a concrete URL. -/
theorem c2_witness :
    validHTTPUrl "https://foo.com" = true ∧
    ((∀ (now : Int) (store : Store),
        Store.get (handleCreate effOK now store (createReq "https://foo.com")).store
            (String.mk ((hexEncode (sha256 (strBytes "https://foo.com"))).take 8)) =
          some ⟨String.mk ((hexEncode (sha256 (strBytes "https://foo.com"))).take 8),
                "https://foo.com", now + 604800, rfc3339 now, 0⟩) ∧
     generateShortCode "https://foo.com" = "a9a9b569" ∧
     generateShortCode "https://bar.com" = "23d97719") :=
  ⟨by decide, c2_shortcode_sha256 effOK "https://foo.com" (by decide) rfl rfl⟩

/-- Claim C3: every input string the URL validation refuses — the empty
string, an unparsable string, or a scheme other than `http`/`https` —
makes `create` answer 400 with the store untouched; the empty string is
turned away at the parameter check, before parsing or hashing. -/
theorem c3_create_rejects_invalid (eff : Eff) (now : Int) (store : Store) (s : String)
    (h : validHTTPUrl s = false) :
    (handleCreate eff now store (createReq s)).resp.statusCode = 400 ∧
    (handleCreate eff now store (createReq s)).store = store ∧
    (handleCreate eff now store (createReq "")).resp =
      ⟨400, baseHeaders, missingURLBody⟩ := by
  refine ⟨?_, ?_, by simp [handleCreate, createReq, lookupStr, List.find?]⟩ <;>
    by_cases hs : s = "" <;>
      simp [handleCreate, createReq, lookupStr, List.find?, hs, h]

/-- Witness for C3 at a concrete non-http scheme. -/
theorem c3_witness :
    validHTTPUrl "ftp://foo.com" = false ∧
    ((handleCreate effOK 0 [] (createReq "ftp://foo.com")).resp.statusCode = 400 ∧
     (handleCreate effOK 0 [] (createReq "ftp://foo.com")).store = [] ∧
     (handleCreate effOK 0 [] (createReq "")).resp = ⟨400, baseHeaders, missingURLBody⟩) :=
  ⟨by decide, c3_create_rejects_invalid effOK 0 [] "ftp://foo.com" (by decide)⟩

/-- Claim C6: a successful `create` performs an unconditional upsert of
the record keyed by the derived short code, with `expires_at` exactly
the creation time plus 604800 seconds, `created_at` the creation time,
and `click_count` 0; a repeated `create` of the same URL overwrites the
record with the fresh values. -/
theorem c6_create_upserts (eff : Eff) (now now2 : Int) (store : Store) (s : String)
    (hv : validHTTPUrl s = true) (hm : eff.createMarshalOk = true)
    (hp : eff.createPutOk = true) :
    (handleCreate eff now store (createReq s)).store =
      Store.put store ⟨generateShortCode s, s, now + 604800, rfc3339 now, 0⟩ ∧
    Store.get (handleCreate eff now store (createReq s)).store (generateShortCode s) =
      some ⟨generateShortCode s, s, now + 604800, rfc3339 now, 0⟩ ∧
    Store.get (handleCreate eff now2 (handleCreate eff now store (createReq s)).store
        (createReq s)).store (generateShortCode s) =
      some ⟨generateShortCode s, s, now2 + 604800, rfc3339 now2, 0⟩ := by
  rw [handleCreate_success eff now store s hv hm hp,
    handleCreate_success eff now2 _ s hv hm hp]
  refine ⟨rfl, ?_, ?_⟩ <;> rw [store_get_put] <;> simp

/-- Witness for C6 at a concrete URL and two clocks. -/
theorem c6_witness :
    validHTTPUrl "https://foo.com" = true ∧
    ((handleCreate effOK 0 [] (createReq "https://foo.com")).store =
      Store.put [] ⟨generateShortCode "https://foo.com", "https://foo.com",
        0 + 604800, rfc3339 0, 0⟩ ∧
     Store.get (handleCreate effOK 0 [] (createReq "https://foo.com")).store
        (generateShortCode "https://foo.com") =
      some ⟨generateShortCode "https://foo.com", "https://foo.com",
        0 + 604800, rfc3339 0, 0⟩ ∧
     Store.get (handleCreate effOK 7 (handleCreate effOK 0 []
        (createReq "https://foo.com")).store (createReq "https://foo.com")).store
        (generateShortCode "https://foo.com") =
      some ⟨generateShortCode "https://foo.com", "https://foo.com",
        7 + 604800, rfc3339 7, 0⟩) :=
  ⟨by decide, c6_create_upserts effOK 0 7 [] "https://foo.com" (by decide) rfl rfl⟩

/-- Counterexample to claim C4 as stated: for an expired record still
present in the store, `resolve` does answer 404, but its body is
`{"error": "Short URL has expired"}`, not the claimed
`{"error": "Short URL not found"}`. -/
theorem c4_counterexample :
    Store.get [⟨"abcd1234", "https://foo.com", 10, "1970-01-01T00:00:00Z", 0⟩]
        "abcd1234" =
      some ⟨"abcd1234", "https://foo.com", 10, "1970-01-01T00:00:00Z", 0⟩ ∧
    (11 : Int) > 10 ∧
    (handleRedirect effOK 11 [⟨"abcd1234", "https://foo.com", 10,
        "1970-01-01T00:00:00Z", 0⟩] (resolveReq "abcd1234")).resp.statusCode = 404 ∧
    (handleRedirect effOK 11 [⟨"abcd1234", "https://foo.com", 10,
        "1970-01-01T00:00:00Z", 0⟩] (resolveReq "abcd1234")).resp.body = expiredBody ∧
    (handleRedirect effOK 11 [⟨"abcd1234", "https://foo.com", 10,
        "1970-01-01T00:00:00Z", 0⟩] (resolveReq "abcd1234")).resp.body ≠ notFoundBody := by
  decide

/-- Claim C4 as amended: `resolve` answers 404 with the store untouched
both for a missing code and for a present-but-expired record
(current time strictly past `expires_at`); the body is
`{"error": "Short URL not found"}` in the missing case and
`{"error": "Short URL has expired"}` in the expired case. -/
theorem c4_notfound_and_expired (eff : Eff) (now : Int) (store : Store) (code : String)
    (hg : eff.getOk = true) (hu : eff.unmarshalOk = true) :
    (Store.get store code = none →
      handleRedirect eff now store (resolveReq code) =
        ⟨⟨404, baseHeaders, notFoundBody⟩, none, store⟩) ∧
    (∀ r : URLRecord, Store.get store code = some r → now > r.ExpiresAt →
      handleRedirect eff now store (resolveReq code) =
        ⟨⟨404, baseHeaders, expiredBody⟩, none, store⟩) := by
  constructor
  · intro h
    simp [handleRedirect, resolveReq, hg, h]
  · intro r h hexp
    simp [handleRedirect, resolveReq, hg, hu, h, hexp]

/-- Witness for the amended C4 at a concrete store holding one expired
record (the missing-code part is exercised on an unknown code). -/
theorem c4_witness :
    ((Store.get [(⟨"abcd1234", "https://foo.com", 10, "1970-01-01T00:00:00Z", 0⟩ :
          URLRecord)] "zzzz" = none →
      handleRedirect effOK 11 [⟨"abcd1234", "https://foo.com", 10,
          "1970-01-01T00:00:00Z", 0⟩] (resolveReq "zzzz") =
        ⟨⟨404, baseHeaders, notFoundBody⟩, none,
         [⟨"abcd1234", "https://foo.com", 10, "1970-01-01T00:00:00Z", 0⟩]⟩) ∧
     (∀ r : URLRecord,
        Store.get [(⟨"abcd1234", "https://foo.com", 10, "1970-01-01T00:00:00Z", 0⟩ :
            URLRecord)] "zzzz" = some r → (11 : Int) > r.ExpiresAt →
        handleRedirect effOK 11 [⟨"abcd1234", "https://foo.com", 10,
            "1970-01-01T00:00:00Z", 0⟩] (resolveReq "zzzz") =
          ⟨⟨404, baseHeaders, expiredBody⟩, none,
           [⟨"abcd1234", "https://foo.com", 10, "1970-01-01T00:00:00Z", 0⟩]⟩)) :=
  c4_notfound_and_expired effOK 11
    [⟨"abcd1234", "https://foo.com", 10, "1970-01-01T00:00:00Z", 0⟩] "zzzz" rfl rfl

/-- Claim C5: on a hit of a non-expired record the caller gets the same
301 response — status, headers with `Location` the stored original URL,
body — whatever the fate of the click-count write-back (its marshal and
its `PutItem`) and of the metric emission. -/
theorem c5_redirect_response_independent (now : Int) (store : Store) (code : String)
    (r : URLRecord) (eff eff' : Eff)
    (hfound : Store.get store code = some r) (hexp : ¬ now > r.ExpiresAt)
    (hg : eff.getOk = true) (hg' : eff'.getOk = true)
    (hu : eff.unmarshalOk = true) (hu' : eff'.unmarshalOk = true) :
    (handleRedirect eff now store (resolveReq code)).resp =
      (handleRedirect eff' now store (resolveReq code)).resp ∧
    (handleRedirect eff now store (resolveReq code)).resp.statusCode = 301 ∧
    headerGet (handleRedirect eff now store
        (resolveReq code)).resp.headers "Location" = some r.OriginalURL := by
  rw [handleRedirect_hit eff now store code r hg hu hfound hexp,
    handleRedirect_hit eff' now store code r hg' hu' hfound hexp]
  refine ⟨rfl, rfl, ?_⟩
  simp [headerGet, baseHeaders, List.find?]

/-- Witness for C5: one environment with every side effect succeeding,
one with the write-back marshal, write-back put and metric all failing. -/
theorem c5_witness :
    Store.get [(⟨"abcd1234", "https://foo.com", 10, "1970-01-01T00:00:00Z", 3⟩ :
        URLRecord)] "abcd1234" =
      some ⟨"abcd1234", "https://foo.com", 10, "1970-01-01T00:00:00Z", 3⟩ ∧
    ((handleRedirect effOK 9 [⟨"abcd1234", "https://foo.com", 10,
          "1970-01-01T00:00:00Z", 3⟩] (resolveReq "abcd1234")).resp =
       (handleRedirect ⟨true, true, true, true, false, false, false, false⟩ 9
          [⟨"abcd1234", "https://foo.com", 10, "1970-01-01T00:00:00Z", 3⟩]
          (resolveReq "abcd1234")).resp ∧
     (handleRedirect effOK 9 [⟨"abcd1234", "https://foo.com", 10,
          "1970-01-01T00:00:00Z", 3⟩] (resolveReq "abcd1234")).resp.statusCode = 301 ∧
     headerGet (handleRedirect effOK 9 [⟨"abcd1234", "https://foo.com", 10,
          "1970-01-01T00:00:00Z", 3⟩]
          (resolveReq "abcd1234")).resp.headers "Location" = some "https://foo.com") :=
  ⟨by decide,
   c5_redirect_response_independent 9
     [⟨"abcd1234", "https://foo.com", 10, "1970-01-01T00:00:00Z", 3⟩] "abcd1234"
     ⟨"abcd1234", "https://foo.com", 10, "1970-01-01T00:00:00Z", 3⟩
     effOK ⟨true, true, true, true, false, false, false, false⟩
     (by decide) (by decide) rfl rfl rfl rfl⟩

/-- Claim C7: a fully successful `resolve` of a non-expired record
writes back a record identical to the one read except that
`click_count` grew by exactly 1 — in particular `expires_at` is not
extended — and the store's entry under the code becomes that record. -/
theorem c7_resolve_increments_only_clickcount (eff : Eff) (now : Int) (store : Store)
    (code : String) (r : URLRecord)
    (hg : eff.getOk = true) (hu : eff.unmarshalOk = true)
    (hm : eff.updateMarshalOk = true) (hp : eff.updatePutOk = true)
    (hfound : Store.get store code = some r) (hexp : ¬ now > r.ExpiresAt) :
    (handleRedirect eff now store (resolveReq code)).store =
      Store.put store
        ⟨r.ShortCode, r.OriginalURL, r.ExpiresAt, r.CreatedAt, r.ClickCount + 1⟩ ∧
    Store.get (handleRedirect eff now store (resolveReq code)).store code =
      some ⟨r.ShortCode, r.OriginalURL, r.ExpiresAt, r.CreatedAt, r.ClickCount + 1⟩ := by
  rw [handleRedirect_hit eff now store code r hg hu hfound hexp]
  have hrec : ({ r with ClickCount := r.ClickCount + 1 } : URLRecord) =
      ⟨r.ShortCode, r.OriginalURL, r.ExpiresAt, r.CreatedAt, r.ClickCount + 1⟩ := rfl
  have hk : r.ShortCode = code := store_get_key store code r hfound
  refine ⟨by simp [hm, hp, hrec], ?_⟩
  simp only [hm, hp, and_self, if_true, hrec, store_get_put]
  simp [hk]

/-- Witness for C7 at a concrete store. -/
theorem c7_witness :
    Store.get [(⟨"abcd1234", "https://foo.com", 10, "1970-01-01T00:00:00Z", 3⟩ :
        URLRecord)] "abcd1234" =
      some ⟨"abcd1234", "https://foo.com", 10, "1970-01-01T00:00:00Z", 3⟩ ∧
    ((handleRedirect effOK 9 [⟨"abcd1234", "https://foo.com", 10,
         "1970-01-01T00:00:00Z", 3⟩] (resolveReq "abcd1234")).store =
       Store.put [⟨"abcd1234", "https://foo.com", 10, "1970-01-01T00:00:00Z", 3⟩]
         ⟨"abcd1234", "https://foo.com", 10, "1970-01-01T00:00:00Z", 3 + 1⟩ ∧
     Store.get (handleRedirect effOK 9 [⟨"abcd1234", "https://foo.com", 10,
         "1970-01-01T00:00:00Z", 3⟩] (resolveReq "abcd1234")).store "abcd1234" =
       some ⟨"abcd1234", "https://foo.com", 10, "1970-01-01T00:00:00Z", 3 + 1⟩) :=
  ⟨by decide,
   c7_resolve_increments_only_clickcount effOK 9
     [⟨"abcd1234", "https://foo.com", 10, "1970-01-01T00:00:00Z", 3⟩] "abcd1234"
     ⟨"abcd1234", "https://foo.com", 10, "1970-01-01T00:00:00Z", 3⟩
     rfl rfl rfl rfl (by decide) (by decide)⟩

/-- Claim C8: when the scan succeeds, the metrics report carries
`urls_created` = number of records scanned, `urls_accessed` = sum of
their click counts, `active_urls` = the same record count, and
`unique_visitors` passed the very same value as `urls_accessed`; on an
empty store every counter is zero, the status is 200 and the Go error
is nil. -/
theorem c8_metrics_report (eff : Eff) (now : Int) (store : Store) (req : Request)
    (hs : eff.scanOk = true) :
    (handleMetrics eff now store req).resp =
      ⟨200, baseHeaders,
       metricsOKBody (store.length : Int) (store.map (fun r => r.ClickCount)).sum
         (store.map (fun r => r.ClickCount)).sum (store.length : Int) now⟩ ∧
    (handleMetrics eff now store req).err = none ∧
    (handleMetrics eff now store req).store = store ∧
    (handleMetrics eff now [] req).resp = ⟨200, baseHeaders, metricsOKBody 0 0 0 0 now⟩ := by
  refine ⟨?_, ?_, ?_, ?_⟩ <;> simp [handleMetrics, hs, scanCounts_eq]

/-- Witness for C8 at a concrete two-record store. -/
theorem c8_witness :
    ((handleMetrics effOK 0 [⟨"a", "https://a.com", 10, "t", 2⟩,
         ⟨"b", "https://b.com", 10, "t", 5⟩] (createReq "x")).resp =
       ⟨200, baseHeaders,
        metricsOKBody ((2 : Nat) : Int)
          ([(⟨"a", "https://a.com", 10, "t", 2⟩ : URLRecord),
            ⟨"b", "https://b.com", 10, "t", 5⟩].map (fun r => r.ClickCount)).sum
          ([(⟨"a", "https://a.com", 10, "t", 2⟩ : URLRecord),
            ⟨"b", "https://b.com", 10, "t", 5⟩].map (fun r => r.ClickCount)).sum
          ((2 : Nat) : Int) 0⟩ ∧
     (handleMetrics effOK 0 [⟨"a", "https://a.com", 10, "t", 2⟩,
         ⟨"b", "https://b.com", 10, "t", 5⟩] (createReq "x")).err = none ∧
     (handleMetrics effOK 0 [⟨"a", "https://a.com", 10, "t", 2⟩,
         ⟨"b", "https://b.com", 10, "t", 5⟩] (createReq "x")).store =
       [⟨"a", "https://a.com", 10, "t", 2⟩, ⟨"b", "https://b.com", 10, "t", 5⟩] ∧
     (handleMetrics effOK 0 [] (createReq "x")).resp =
       ⟨200, baseHeaders, metricsOKBody 0 0 0 0 0⟩) :=
  c8_metrics_report effOK 0
    [⟨"a", "https://a.com", 10, "t", 2⟩, ⟨"b", "https://b.com", 10, "t", 5⟩]
    (createReq "x") rfl

/-- Counterexample to claim C9 as stated: after `create` and one
`resolve` of `https://foo.com` the stored click count is 1, yet a
further `create` of the same URL writes the record with click count 0 —
strictly smaller than the stored value. -/
theorem c9_counterexample :
    Store.get (handleRedirect effOK 0
        (handleCreate effOK 0 [] (createReq "https://foo.com")).store
        (resolveReq "a9a9b569")).store "a9a9b569" =
      some ⟨"a9a9b569", "https://foo.com", 604800, "1970-01-01T00:00:00Z", 1⟩ ∧
    Store.get (handleCreate effOK 0 (handleRedirect effOK 0
        (handleCreate effOK 0 [] (createReq "https://foo.com")).store
        (resolveReq "a9a9b569")).store (createReq "https://foo.com")).store "a9a9b569" =
      some ⟨"a9a9b569", "https://foo.com", 604800, "1970-01-01T00:00:00Z", 0⟩ ∧
    (0 : Int) < 1 := by
  decide

/-- The possible stores a redirect leaves behind: untouched, or with
the found record's click count bumped. -/
theorem handleRedirect_store_cases (eff : Eff) (now : Int) (store : Store)
    (req : Request) :
    (handleRedirect eff now store req).store = store ∨
    ∃ rec : URLRecord, Store.get store req.pathShortCode = some rec ∧
      (handleRedirect eff now store req).store =
        Store.put store { rec with ClickCount := rec.ClickCount + 1 } := by
  unfold handleRedirect
  by_cases hg : eff.getOk = false
  · left
    simp [hg]
  · rw [if_neg hg]
    cases hfind : Store.get store req.pathShortCode with
    | none => left; simp
    | some rec =>
        simp only []
        by_cases hu : eff.unmarshalOk = false
        · left; simp [hu]
        · rw [if_neg hu]
          by_cases hexp : now > rec.ExpiresAt
          · left; simp [hexp]
          · rw [if_neg hexp]
            by_cases hflags : eff.updateMarshalOk = true ∧ eff.updatePutOk = true
            · right
              exact ⟨rec, rfl, by simp [hflags]⟩
            · left
              simp [hflags]

/-- Claim C9 as amended: a `resolve` never lowers the click count
stored under any short code (on a hit it writes exactly the old value
plus 1); but `create` always writes click count 0, so re-creating an
existing URL resets the counter, and the monotonicity only holds across
resolve operations, not across arbitrary create/resolve sequences. -/
theorem c9_redirect_clickcount_monotone (eff : Eff) (now : Int) (store : Store)
    (req : Request) (code : String) (r r2 : URLRecord)
    (hbefore : Store.get store code = some r)
    (hafter : Store.get (handleRedirect eff now store req).store code = some r2) :
    r.ClickCount ≤ r2.ClickCount := by
  have unchanged : ∀ x : URLRecord, Store.get store code = some x →
      r.ClickCount ≤ x.ClickCount := by
    intro x hx
    rw [hbefore] at hx
    exact le_of_eq (congrArg URLRecord.ClickCount (Option.some.inj hx))
  rcases handleRedirect_store_cases eff now store req with hcase | ⟨rec, hfind, hcase⟩
  · rw [hcase] at hafter
    exact unchanged r2 hafter
  · rw [hcase, store_get_put] at hafter
    by_cases hc : code = ({ rec with ClickCount := rec.ClickCount + 1 } : URLRecord).ShortCode
    · rw [if_pos hc] at hafter
      have hr2 : ({ rec with ClickCount := rec.ClickCount + 1 } : URLRecord) = r2 :=
        Option.some.inj hafter
      have hkey : rec.ShortCode = req.pathShortCode :=
        store_get_key store req.pathShortCode rec hfind
      have hcode : code = req.pathShortCode := by
        simpa [hkey] using hc
      rw [hcode, hfind] at hbefore
      have hrrec : rec = r := Option.some.inj hbefore
      rw [← hr2, hrrec]
      simp
    · rw [if_neg hc] at hafter
      exact unchanged r2 hafter

/-- Witness for the amended C9 at a concrete store and redirect. -/
theorem c9_witness :
    Store.get [(⟨"abcd1234", "https://foo.com", 10, "1970-01-01T00:00:00Z", 3⟩ :
        URLRecord)] "abcd1234" =
      some ⟨"abcd1234", "https://foo.com", 10, "1970-01-01T00:00:00Z", 3⟩ ∧
    Store.get (handleRedirect effOK 9 [⟨"abcd1234", "https://foo.com", 10,
        "1970-01-01T00:00:00Z", 3⟩] (resolveReq "abcd1234")).store "abcd1234" =
      some ⟨"abcd1234", "https://foo.com", 10, "1970-01-01T00:00:00Z", 4⟩ ∧
    (3 : Int) ≤ (4 : Int) :=
  ⟨by decide, by decide,
   c9_redirect_clickcount_monotone effOK 9
     [⟨"abcd1234", "https://foo.com", 10, "1970-01-01T00:00:00Z", 3⟩]
     (resolveReq "abcd1234") "abcd1234"
     ⟨"abcd1234", "https://foo.com", 10, "1970-01-01T00:00:00Z", 3⟩
     ⟨"abcd1234", "https://foo.com", 10, "1970-01-01T00:00:00Z", 4⟩
     (by decide) (by decide)⟩

/-- The response classes every handler may answer with. -/
def okOut (o : HandlerOut) : Prop :=
  o.err = none ∧
  (o.resp.statusCode = 200 ∨ o.resp.statusCode = 301 ∨ o.resp.statusCode = 400 ∨
   o.resp.statusCode = 404 ∨ o.resp.statusCode = 500)

theorem okOut_create (eff : Eff) (now : Int) (store : Store) (req : Request) :
    okOut (handleCreate eff now store req) := by
  unfold handleCreate
  cases req.bodyJson with
  | none => simp [okOut]
  | some data =>
      by_cases h1 : lookupStr data "url" = "" <;>
        by_cases h2 : validHTTPUrl (lookupStr data "url") = false <;>
          by_cases h3 : eff.createMarshalOk = false <;>
            by_cases h4 : eff.createPutOk = false <;>
              simp [okOut, h1, h2, h3, h4]

theorem okOut_redirect (eff : Eff) (now : Int) (store : Store) (req : Request) :
    okOut (handleRedirect eff now store req) := by
  simp only [handleRedirect]
  by_cases hg : eff.getOk = false
  · simp [okOut, hg]
  · cases hfind : Store.get store req.pathShortCode with
    | none => simp [okOut, hg, hfind]
    | some rec =>
        by_cases hu : eff.unmarshalOk = false <;>
          by_cases hexp : now > rec.ExpiresAt <;>
            simp [okOut, hg, hfind, hu, hexp]

theorem okOut_metrics (eff : Eff) (now : Int) (store : Store) (req : Request) :
    okOut (handleMetrics eff now store req) := by
  unfold handleMetrics
  by_cases hs : eff.scanOk = false <;> simp [okOut, hs]

/-- Claim C10: on every request whatsoever, and under every outcome of
the external calls, the handler returns a nil Go error together with a
response whose status code is 200, 301, 400, 404 or 500. -/
theorem c10_handler_total (eff : Eff) (now : Int) (store : Store) (req : Request) :
    (handleRequest eff now store req).err = none ∧
    ((handleRequest eff now store req).resp.statusCode = 200 ∨
     (handleRequest eff now store req).resp.statusCode = 301 ∨
     (handleRequest eff now store req).resp.statusCode = 400 ∨
     (handleRequest eff now store req).resp.statusCode = 404 ∨
     (handleRequest eff now store req).resp.statusCode = 500) := by
  show okOut (handleRequest eff now store req)
  unfold handleRequest
  split_ifs
  · exact okOut_create eff now store req
  · exact okOut_redirect eff now store req
  · exact okOut_metrics eff now store req
  · simp [okOut]

end UrlSh
